import Mathlib

/-!
Verification of `bbbattendance.py` (BigBlueButton attendance report
extractor).  The Python source is shallowly embedded below: each Python
function becomes a Lean function of the same name, Python exceptions become
constructors of `PyError`, the log file becomes a `List String` of its lines
(without trailing newline characters), and the decoded JSON payload becomes
the inductive `JValue`.  The one loop-carried local variable of
`parse_data` (`evuser`, assigned only for known log codes) is threaded
explicitly as an `Option JValue` state.
-/

/-! ## Character and string helpers (Python slicing and substring search) -/

/-- Models Python string slicing `s[0:n]` (character based). -/
def pyTake (s : String) (n : Nat) : String :=
  String.mk (s.data.take n)

/-- Whether `pat` occurs as a contiguous substring of `cs`; this is the
semantics of `re.search` for a pattern that is a plain literal wrapped in
greedy dot-stars. -/
def containsSub (cs pat : List Char) : Bool :=
  match cs with
  | [] => pat.isEmpty
  | c :: rest => List.isPrefixOf pat (c :: rest) || containsSub rest pat

/-! ## Line Matcher: `read_data` (src/bbbattendance.py lines 83-101)

The Python code compiles the regular expression
`.*(user_joined_message|user_left_message|meeting_started|meeting_ended).*`
and keeps each line for which `line_regex.search(line)` succeeds.  For this
pattern a search succeeds exactly when the line contains one of the four
literal markers as a substring. -/

/-- Models `line_regex.search(line)` succeeding for the pattern compiled in
`read_data`: the line contains one of the four event markers. -/
def line_regex_matches (line : String) : Bool :=
  containsSub line.data "user_joined_message".data ||
  containsSub line.data "user_left_message".data ||
  containsSub line.data "meeting_started".data ||
  containsSub line.data "meeting_ended".data

/-- Models `read_data` applied to an already-opened log: keep, in order, the
lines matched by the event regular expression.  (Opening the file, and the
`FileNotFoundError` when it is missing, are modelled at the caller,
`runMain` below.) -/
def read_data (logLines : List String) : List String :=
  logLines.filter line_regex_matches

/-! ## Timestamps: `datetime.datetime.fromisoformat` and `strftime`

`parse_data` calls `dt.datetime.fromisoformat(line[0:29])`.  The model
follows the C accelerator that default CPython actually runs
(`Modules/_datetime.c` of CPython 3.7-3.10: `parse_isoformat_date`,
`parse_isoformat_time`, `parse_hh_mm_ss_ff`), including its quirks:
a fractional part directly after the hour or minute component, sub-minute
timezone offsets (accepted by `datetime.timezone` since 3.7), the
unvalidated single character the component loop may swallow right before
the timezone sign, and a colon accepted in place of the fraction dot after
the seconds.  Where later CPython (3.11+) widened the accepted formats
further, the model keeps the 3.7-3.10 set, which those versions also
accept with the same meaning.  A failure (Python `ValueError`) is
`none`. -/

structure PyDateTime where
  year : Nat
  month : Nat
  day : Nat
  hour : Nat
  minute : Nat
  second : Nat
  microsecond : Nat
  /-- UTC offset in microseconds, when the string carried a timezone. -/
  tzOffsetUSec : Option Int
deriving DecidableEq

def digitVal (c : Char) : Option Nat :=
  if c.isDigit then some (c.toNat - '0'.toNat) else none

def twoDigits (a b : Char) : Option Nat :=
  match digitVal a, digitVal b with
  | some x, some y => some (10 * x + y)
  | _, _ => none

def fourDigits (a b c d : Char) : Option Nat :=
  match twoDigits a b, twoDigits c d with
  | some x, some y => some (100 * x + y)
  | _, _ => none

/-- Value of an all-digit run (callers fix the length first). -/
def digitsVal (cs : List Char) : Nat :=
  cs.foldl (fun a c => a * 10 + (c.toNat - '0'.toNat)) 0

/-- Models the fractional part after the dot in the C `parse_hh_mm_ss_ff`:
exactly 3 or 6 digits, a 3-digit value counts milliseconds. -/
def parseFracMicro (cs : List Char) : Option Nat :=
  if (cs.length = 3 ∨ cs.length = 6) ∧ cs.all Char.isDigit then
    some (if cs.length = 3 then digitsVal cs * 1000 else digitsVal cs)
  else none

/-- Fraction stage of the C `parse_hh_mm_ss_ff`: the remainder of the
slice must be exactly 3 or 6 digits; the returned flag (C: the nonzero
return value, read by the caller as "did not stop at the end of the whole
string") is `moreFollows`, true when a timezone sign follows the slice. -/
def hmsFrac (hh mm ss : Nat) (cs : List Char) (moreFollows : Bool) :
    Option (Nat × Nat × Nat × Nat × Bool) :=
  match parseFracMicro cs with
  | none => none
  | some ff => some (hh, mm, ss, ff, moreFollows)

/-- Seconds stage of the C `parse_hh_mm_ss_ff` component loop.  With the
two digits ending the slice the flag is `moreFollows`; with exactly one
character after them that character is swallowed unvalidated and the flag
is true (C reads it as the separator and only then notices the slice is
over); after the third component both `.` and `:` lead into the fraction
(the loop's `continue` at the last index falls out of the loop). -/
def hmsSecond (hh mm : Nat) (cs : List Char) (moreFollows : Bool) :
    Option (Nat × Nat × Nat × Nat × Bool) :=
  match cs with
  | a :: b :: rest =>
    match twoDigits a b with
    | none => none
    | some ss =>
      match rest with
      | [] => some (hh, mm, ss, 0, moreFollows)
      | [_] => some (hh, mm, ss, 0, true)
      | c :: rest2 =>
        if c = ':' ∨ c = '.' then hmsFrac hh mm ss rest2 moreFollows
        else none
  | _ => none

/-- Minutes stage of the C `parse_hh_mm_ss_ff` component loop (same
boundary behavior as `hmsSecond`; a dot goes straight to the fraction,
leaving seconds 0). -/
def hmsMinute (hh : Nat) (cs : List Char) (moreFollows : Bool) :
    Option (Nat × Nat × Nat × Nat × Bool) :=
  match cs with
  | a :: b :: rest =>
    match twoDigits a b with
    | none => none
    | some mm =>
      match rest with
      | [] => some (hh, mm, 0, 0, moreFollows)
      | [_] => some (hh, mm, 0, 0, true)
      | c :: rest2 =>
        if c = ':' then hmsSecond hh mm rest2 moreFollows
        else if c = '.' then hmsFrac hh mm 0 rest2 moreFollows
        else none
  | _ => none

/-- Models the C accelerator's `parse_hh_mm_ss_ff` on a slice (the time
text up to the timezone sign, or a timezone body): `HH`, then optionally
`:MM`, `:SS` and a 3- or 6-digit fraction after `.` — the fraction also
accepted directly after hours or minutes, exactly as the C loop breaks on
a dot after any component.  Returns (h, m, s, microsecond, flag), the flag
being the C nonzero return value. -/
def parseHmsFF (cs : List Char) (moreFollows : Bool) :
    Option (Nat × Nat × Nat × Nat × Bool) :=
  match cs with
  | a :: b :: rest =>
    match twoDigits a b with
    | none => none
    | some hh =>
      match rest with
      | [] => some (hh, 0, 0, 0, moreFollows)
      | [_] => some (hh, 0, 0, 0, true)
      | c :: rest2 =>
        if c = ':' then hmsMinute hh rest2 moreFollows
        else if c = '.' then hmsFrac hh 0 0 rest2 moreFollows
        else none
  | _ => none

/-- Models `_parse_isoformat_date` on `s[0:10]`: exactly `YYYY-MM-DD`. -/
def parseIsoDate (cs : List Char) : Option (Nat × Nat × Nat) :=
  match cs with
  | [y1, y2, y3, y4, '-', m1, m2, '-', d1, d2] =>
    match fourDigits y1 y2 y3 y4, twoDigits m1 m2, twoDigits d1 d2 with
    | some y, some mo, some d => some (y, mo, d)
    | _, _, _ => none
  | _ => none

/-- First index holding a timezone sign character, models the C
`parse_isoformat_time` scan for the first `+` or `-`. -/
def findTzIdx (cs : List Char) : Option Nat :=
  match cs with
  | [] => none
  | c :: rest =>
    if c = '+' ∨ c = '-' then some 0 else (findTzIdx rest).map (· + 1)

/-- Models the C accelerator's `parse_isoformat_time`: the time text runs
to the first sign character; the timezone (sign included) must be 6, 9 or
16 characters (`±HH:MM`, `±HH:MM:SS`, `±HH:MM:SS.ffffff`) and must consume
its slice exactly; `datetime.timezone` then accepts any offset — sub-minute
ones included — strictly between minus and plus 24 hours, a zero offset
becoming UTC.  Without a timezone the time text must consume the whole
slice (flag false).  Returns (h, m, s, microsecond, offset microseconds). -/
def parseIsoTime (cs : List Char) : Option (Nat × Nat × Nat × Nat × Option Int) :=
  match findTzIdx cs with
  | none =>
    match parseHmsFF cs false with
    | none => none
    | some (h, m, s, f, flag) => if flag then none else some (h, m, s, f, none)
  | some i =>
    match parseHmsFF (cs.take i) true with
    | none => none
    | some (h, m, s, f, _) =>
      if cs.length - i = 6 ∨ cs.length - i = 9 ∨ cs.length - i = 16 then
        match parseHmsFF (cs.drop (i + 1)) false with
        | none => none
        | some (th, tm, ts, tf, flag) =>
          if flag then none
          else
            let sign : Int := if (cs.drop i).head? = some '-' then -1 else 1
            let totalUs : Int := sign * Int.ofNat ((th * 3600 + tm * 60 + ts) * 1000000 + tf)
            if totalUs = 0 then some (h, m, s, f, some 0)
            else if -86400000000 < totalUs ∧ totalUs < 86400000000 then
              some (h, m, s, f, some totalUs)
            else none
      else none

def isLeapYear (y : Nat) : Bool :=
  y % 4 = 0 && (y % 100 ≠ 0 || y % 400 = 0)

def daysInMonth (y m : Nat) : Nat :=
  if m = 2 then (if isLeapYear y then 29 else 28)
  else if m = 4 ∨ m = 6 ∨ m = 9 ∨ m = 11 then 30
  else 31

/-- Models the C accelerator's `datetime_fromisoformat`: date from
`s[0:10]`; a string of exactly 10 characters is midnight, a longer one has
the character at index 10 (any separator) skipped and its time parsed from
index 11 on (so a trailing lone separator is an error, as in C); then the
range checks of the `datetime` constructor. -/
def fromisoformat (s : String) : Option PyDateTime :=
  let cs := s.data
  match parseIsoDate (cs.take 10) with
  | none => none
  | some (y, mo, d) =>
    match (if cs.length ≤ 10 then some (0, 0, 0, 0, (none : Option Int))
           else parseIsoTime (cs.drop 11)) with
    | none => none
    | some (h, mi, se, f, tz) =>
      if 1 ≤ y ∧ 1 ≤ mo ∧ mo ≤ 12 ∧ 1 ≤ d ∧ d ≤ daysInMonth y mo ∧
          h ≤ 23 ∧ mi ≤ 59 ∧ se ≤ 59 ∧ f ≤ 999999 then
        some ⟨y, mo, d, h, mi, se, f, tz⟩
      else none

def pad2 (n : Nat) : String :=
  if n < 10 then "0" ++ toString n else toString n

/-- Models `timestamp.strftime('%Y-%m-%d')` as glibc (the program's Linux
target) formats it: `%m` and `%d` zero-padded to two digits, `%Y` the year
in plain decimal — glibc does not zero-pad years below 1000. -/
def strftimeYMD (t : PyDateTime) : String :=
  toString t.year ++ "-" ++ pad2 t.month ++ "-" ++ pad2 t.day

/-- Models `timestamp.strftime('%H:%M')`. -/
def strftimeHM (t : PyDateTime) : String :=
  pad2 t.hour ++ ":" ++ pad2 t.minute

/-! ## JSON: `json.loads`

Decoded JSON values; numeric literals are kept verbatim (their numeric
value is never used by the program). -/

inductive JValue where
  | null
  | bool (b : Bool)
  | num (raw : String)
  | str (s : String)
  | arr (elems : List JValue)
  | obj (fields : List (String × JValue))

def isJsonWs (c : Char) : Bool :=
  c = ' ' || c = '\t' || c = '\n' || c = '\x0d'

def skipWs (cs : List Char) : List Char :=
  cs.dropWhile isJsonWs

def hexVal (c : Char) : Option Nat :=
  if '0' ≤ c ∧ c ≤ '9' then some (c.toNat - '0'.toNat)
  else if 'a' ≤ c ∧ c ≤ 'f' then some (c.toNat - 'a'.toNat + 10)
  else if 'A' ≤ c ∧ c ≤ 'F' then some (c.toNat - 'A'.toNat + 10)
  else none

/-- JSON string body after the opening quote: characters until the closing
quote, with the standard escapes; unescaped control characters are
rejected (`json` strict mode).  Fuel-indexed for structural recursion. -/
def parseJStr : Nat → List Char → Option (List Char × List Char)
  | 0, _ => none
  | _ + 1, [] => none
  | _ + 1, '"' :: rest => some ([], rest)
  | n + 1, '\\' :: rest =>
    let dec : Option (Char × List Char) :=
      match rest with
      | [] => none
      | e :: rest2 =>
        if e = '"' then some ('"', rest2)
        else if e = '\\' then some ('\\', rest2)
        else if e = '/' then some ('/', rest2)
        else if e = 'b' then some ('\x08', rest2)
        else if e = 'f' then some ('\x0c', rest2)
        else if e = 'n' then some ('\n', rest2)
        else if e = 'r' then some ('\x0d', rest2)
        else if e = 't' then some ('\t', rest2)
        else if e = 'u' then
          match rest2 with
          | a :: b :: c :: d :: rest3 =>
            match hexVal a, hexVal b, hexVal c, hexVal d with
            | some x, some y, some z, some w =>
              some (Char.ofNat (((x * 16 + y) * 16 + z) * 16 + w), rest3)
            | _, _, _, _ => none
          | _ => none
        else none
    match dec with
    | none => none
    | some (ch, rest3) =>
      match parseJStr n rest3 with
      | none => none
      | some (s, r) => some (ch :: s, r)
  | n + 1, c :: rest =>
    if c.toNat < 32 then none
    else
      match parseJStr n rest with
      | none => none
      | some (s, r) => some (c :: s, r)

/-- Fraction and exponent continuation of a JSON number literal (the
optional groups of the scanner's NUMBER_RE); returns the consumed
characters and the remainder. -/
def parseJNumTail (cs : List Char) : List Char × List Char :=
  let fracStep : List Char × List Char :=
    match cs with
    | '.' :: r =>
      let ds := r.takeWhile Char.isDigit
      if ds.isEmpty then ([], cs) else ('.' :: ds, r.drop ds.length)
    | _ => ([], cs)
  let cs2 := fracStep.2
  let expStep : List Char × List Char :=
    match cs2 with
    | e :: r =>
      if e = 'e' ∨ e = 'E' then
        let signPart : List Char × List Char :=
          match r with
          | '+' :: rr => (['+'], rr)
          | '-' :: rr => (['-'], rr)
          | _ => ([], r)
        let ds := signPart.2.takeWhile Char.isDigit
        if ds.isEmpty then ([], cs2)
        else (e :: (signPart.1 ++ ds), signPart.2.drop ds.length)
      else ([], cs2)
    | [] => ([], cs2)
  (fracStep.1 ++ expStep.1, expStep.2)

/-- JSON number literal at the head of `cs` (scanner's NUMBER_RE:
`-?(0|[1-9][0-9]*)(frac)?(exp)?`), kept verbatim. -/
def parseJNum (cs : List Char) : Option (JValue × List Char) :=
  let signAndRest : List Char × List Char :=
    match cs with
    | '-' :: r => (['-'], r)
    | _ => ([], cs)
  let intAndRest : Option (List Char × List Char) :=
    match signAndRest.2 with
    | '0' :: r => some (['0'], r)
    | c :: r =>
      if c.isDigit then
        let ds := (c :: r).takeWhile Char.isDigit
        some (ds, (c :: r).drop ds.length)
      else none
    | [] => none
  match intAndRest with
  | none => none
  | some (ip, rest) =>
    let tail := parseJNumTail rest
    some (.num (String.mk (signAndRest.1 ++ ip ++ tail.1)), tail.2)

mutual

/-- One JSON value at the head of the input (leading whitespace allowed),
as accepted by the scanner of `json.loads` with the default flags
(`NaN`, `Infinity` and `-Infinity` included).  Fuel-indexed; every
recursive call consumes at least one character first, so fuel equal to the
input length plus two always suffices. -/
def parseJValue : Nat → List Char → Option (JValue × List Char)
  | 0, _ => none
  | n + 1, cs0 =>
    let cs := skipWs cs0
    if List.isPrefixOf "true".data cs then some (.bool true, cs.drop 4)
    else if List.isPrefixOf "false".data cs then some (.bool false, cs.drop 5)
    else if List.isPrefixOf "null".data cs then some (.null, cs.drop 4)
    else if List.isPrefixOf "NaN".data cs then some (.num "NaN", cs.drop 3)
    else if List.isPrefixOf "Infinity".data cs then some (.num "Infinity", cs.drop 8)
    else if List.isPrefixOf "-Infinity".data cs then some (.num "-Infinity", cs.drop 9)
    else
      match cs with
      | '\x7b' :: rest =>
        (match skipWs rest with
         | '\x7d' :: rest2 => some (.obj [], rest2)
         | _ =>
           match parseJMembers n rest with
           | none => none
           | some (fs, r) => some (.obj fs, r))
      | '[' :: rest =>
        (match skipWs rest with
         | ']' :: rest2 => some (.arr [], rest2)
         | _ =>
           match parseJElems n rest with
           | none => none
           | some (vs, r) => some (.arr vs, r))
      | '"' :: rest =>
        (match parseJStr (n + 1) rest with
         | none => none
         | some (s, r) => some (.str (String.mk s), r))
      | _ => parseJNum cs

/-- The members of a JSON object, cursor after `{` (or after a comma):
`"key" : value`, separated by commas, closed by `}`. -/
def parseJMembers : Nat → List Char → Option (List (String × JValue) × List Char)
  | 0, _ => none
  | n + 1, cs =>
    match skipWs cs with
    | '"' :: rest =>
      match parseJStr (n + 1) rest with
      | none => none
      | some (key, rest2) =>
        match skipWs rest2 with
        | ':' :: rest3 =>
          match parseJValue n rest3 with
          | none => none
          | some (v, rest4) =>
            match skipWs rest4 with
            | '\x7d' :: rest5 => some ([(String.mk key, v)], rest5)
            | ',' :: rest5 =>
              (match parseJMembers n rest5 with
               | none => none
               | some (fs, r) => some ((String.mk key, v) :: fs, r))
            | _ => none
        | _ => none
    | _ => none

/-- The elements of a JSON array, cursor after `[` (or after a comma). -/
def parseJElems : Nat → List Char → Option (List JValue × List Char)
  | 0, _ => none
  | n + 1, cs =>
    match parseJValue n cs with
    | none => none
    | some (v, rest) =>
      match skipWs rest with
      | ']' :: rest2 => some ([v], rest2)
      | ',' :: rest2 =>
        (match parseJElems n rest2 with
         | none => none
         | some (vs, r) => some (v :: vs, r))
      | _ => none

end

/-- Models `json.loads`: one JSON document covering the whole string, up to
surrounding whitespace (`Extra data` otherwise); `none` is the Python
`json.JSONDecodeError`. -/
def jsonLoads (s : String) : Option JValue :=
  match parseJValue (s.data.length + 2) s.data with
  | some (v, rest) => if (skipWs rest).isEmpty then some v else none
  | none => none

/-- Lookup in a decoded JSON object.  A repeated key keeps its last value,
as a Python dict built from the parsed pairs does. -/
def jlookup (fields : List (String × JValue)) (k : String) : Option JValue :=
  match fields with
  | [] => none
  | (k2, v) :: rest =>
    match jlookup rest k with
    | some v2 => some v2
    | none => if k2 = k then some v else none

/-- Python `==` between a decoded JSON value and a string literal: true
exactly for the equal string. -/
def jstreq (v : JValue) (t : String) : Bool :=
  match v with
  | .str s => s = t
  | _ => false

/-! ## Event Parser: `parse_data` (src/bbbattendance.py lines 103-137) -/

/-- The distinguishable failures a `parse_data` iteration can raise, named
after the spec's error taxonomy:
`timestampFormat` is the `ValueError` of `fromisoformat`;
`payloadMissing` the `AttributeError` of `.group(1)` on a failed search;
`payloadFormat` the `json.JSONDecodeError`;
`missingField k` the `KeyError` for key `k`;
`typeError` a subscript on a decoded payload that is not an object;
`unboundLocal` the `UnboundLocalError` reading `evuser` never assigned. -/
inductive PyError where
  | timestampFormat
  | payloadMissing
  | payloadFormat
  | missingField (k : String)
  | typeError
  | unboundLocal
deriving DecidableEq

/-- The record `parse_data` builds per line (Python dict with keys Date,
Time, Room, User, Event).  Room, user and event hold whatever JSON value
the payload carried. -/
structure EventRecord where
  date : String
  time : String
  room : JValue
  user : JValue
  event : JValue

/-- Models `re.compile('data=(.*)').search(line).group(1)`: the text after
the first occurrence of `data=`, to the end of the line; `none` when the
marker is absent (Python: `.group` on `None` raises `AttributeError`). -/
def findDataPayload (cs : List Char) : Option (List Char) :=
  match cs with
  | [] => none
  | c :: rest =>
    if List.isPrefixOf "data=".data (c :: rest) then some ((c :: rest).drop 5)
    else findDataPayload rest

def searchData (line : String) : Option String :=
  (findDataPayload line.data).map String.mk

/-- Models `data[k]` for a decoded payload: `KeyError` when the key is
absent, `TypeError` when the payload is not an object. -/
def pySubscript (data : JValue) (k : String) : Except PyError JValue :=
  match data with
  | .obj fields =>
    match jlookup fields k with
    | some v => .ok v
    | none => .error (.missingField k)
  | _ => .error .typeError

/-- One iteration of the loop in `parse_data`: `evuser0` is the value the
local variable `evuser` holds from earlier iterations (`none` before its
first assignment).  Returns the record appended and the new `evuser`. -/
def parseLine (line : String) (evuser0 : Option JValue) :
    Except PyError (EventRecord × Option JValue) :=
  match fromisoformat (pyTake line 29) with
  | none => .error .timestampFormat
  | some ts =>
    let evdate := strftimeYMD ts
    let evtime := strftimeHM ts
    match searchData line with
    | none => .error .payloadMissing
    | some payload =>
      match jsonLoads payload with
      | none => .error .payloadFormat
      | some data =>
        match pySubscript data "name" with
        | .error e => .error e
        | .ok evroom =>
          match pySubscript data "description" with
          | .error e => .error e
          | .ok event =>
            match pySubscript data "logCode" with
            | .error e => .error e
            | .ok lc =>
              if jstreq lc "user_joined_message" || jstreq lc "user_left_message" then
                match pySubscript data "username" with
                | .error e => .error e
                | .ok evuser => .ok (⟨evdate, evtime, evroom, evuser, event⟩, some evuser)
              else if jstreq lc "meeting_started" || jstreq lc "meeting_ended" then
                .ok (⟨evdate, evtime, evroom, .str "", event⟩, some (.str ""))
              else
                match evuser0 with
                | none => .error .unboundLocal
                | some u => .ok (⟨evdate, evtime, evroom, u, event⟩, some u)

/-- The loop of `parse_data`, threading `evuser`. -/
def parse_data_go (raw : List String) (evuser0 : Option JValue) :
    Except PyError (List EventRecord) :=
  match raw with
  | [] => .ok []
  | line :: rest =>
    match parseLine line evuser0 with
    | .error e => .error e
    | .ok (rec, st) =>
      match parse_data_go rest st with
      | .error e => .error e
      | .ok recs => .ok (rec :: recs)

/-- Models `parse_data`: parse every matched line in order; the first
exception aborts the batch. -/
def parse_data (raw_attendance : List String) : Except PyError (List EventRecord) :=
  parse_data_go raw_attendance none

/-! ## Output file naming: `gen_outfile_name` (lines 32-43) -/

def def_output_basename : String := "bbb-report"

/-- Models `gen_outfile_name`: append each nonempty criterion, in the fixed
order date, room, user, to the base name, then the `.csv` extension. -/
def gen_outfile_name (req_date req_room req_user : String) : String :=
  let basename := def_output_basename
  let basename :=
    [req_date, req_room, req_user].foldl
      (fun b item => if item ≠ "" then b ++ "-" ++ item else b) basename
  basename ++ ".csv"

/-! ## Main control flow (lines 166-177) -/

/-- Observable outcome of the pipeline section of `__main__` that follows
argument parsing: an early `sys.exit` with its code, or the parsed batch
handed on to filtering and report writing (an uncaught parse exception
included, as `report (.error e)`). -/
inductive MainOutcome where
  | exitCode (n : Nat)
  | report (result : Except PyError (List EventRecord))

/-- Models the `try/except/else` around `read_data` in `__main__`: the log
file is `none` when opening raises `FileNotFoundError` (exit 2), an empty
match list exits 3, otherwise `parse_data` runs on the matches. -/
def runMain (logContents : Option (List String)) : MainOutcome :=
  match logContents with
  | none => .exitCode 2
  | some logLines =>
    let raw_attendance := read_data logLines
    if raw_attendance.length = 0 then .exitCode 3
    else .report (parse_data raw_attendance)

/-! ## Filter component

The staged source ends right after the call to `parse_data`; the filtering
stage the spec describes is not part of the staged files, so it is modelled
from the spec. -/

/-- Modelled from the spec: the Filter component (spec section 4.3), whose
code is not among the staged source files.  Given the parsed records and
three criteria (empty string being the sentinel for match anything), keep,
in order, the records whose date, room and user fields exactly equal the
corresponding nonempty criteria (case sensitive). -/
def filter_data (records : List EventRecord) (fdate froom fuser : String) :
    List EventRecord :=
  records.filter fun r =>
    (fdate == "" || r.date == fdate) &&
    (froom == "" || jstreq r.room froom) &&
    (fuser == "" || jstreq r.user fuser)

/-! ## Helper observations used by the theorems -/

/-- The decoded `logCode` field of a line's payload, when the line has a
payload that decodes to an object. -/
def lineField (line : String) (k : String) : Option JValue :=
  match searchData line with
  | none => none
  | some p =>
    match jsonLoads p with
    | some (.obj fields) => jlookup fields k
    | _ => none

/-! ## Concrete log lines used as inputs by witnesses and counterexamples -/

/-- A well-formed meeting-start line: the 29-character timestamp slice is
exactly an ISO timestamp with a UTC offset. -/
def exLine : String := "2021-03-04T10:15:02.123+00:00 data=\x7b\"logCode\":\"meeting_started\",\"name\":\"Room1\",\"description\":\"Meeting started\"\x7d"

/-- The same line but with a 23-character timestamp, so `line[0:29]` drags
in the following ` data=` characters. -/
def cexLine7 : String := "2021-03-04T10:15:02.123 data=\x7b\"logCode\":\"meeting_started\",\"name\":\"Room1\",\"description\":\"Meeting started\"\x7d"

/-- A join line whose payload carries an empty `username`. -/
def cexLine3 : String := "2021-03-04T10:15:02.123+00:00 data=\x7b\"logCode\":\"user_joined_message\",\"name\":\"Room1\",\"description\":\"User joined\",\"username\":\"\"\x7d"

/-- A join line with a nonempty `username`. -/
def joinLine : String := "2021-03-04T10:15:02.123+00:00 data=\x7b\"logCode\":\"user_joined_message\",\"name\":\"Room1\",\"description\":\"User joined\",\"username\":\"alice\"\x7d"

/-- A meeting-start line whose 29-character slice is a timestamp with a
sub-minute offset (`+00:00:30.000000`), hour-only time and a fraction-free
parse — accepted by every CPython from 3.7 on. -/
def subMinuteTzLine : String := "2021-03-04T10+00:00:30.000000 data=\x7b\"logCode\":\"meeting_started\",\"name\":\"Room1\",\"description\":\"Meeting started\"\x7d"

/-- A matched line with a valid timestamp but no `data=` marker. -/
def noPayloadLine : String := "2021-03-04T10:15:02.123+00:00 meeting_started, event only"

/-- A matched line (the marker occurs inside the longer log code) whose
`logCode` equals none of the four known strings. -/
def unknownLine : String := "2021-03-04T10:15:02.123+00:00 data=\x7b\"logCode\":\"user_joined_message_v2\",\"name\":\"Room1\",\"description\":\"User ejected\",\"username\":\"bob\"\x7d"

/-! ## C10 -/

/-- C10: `gen_outfile_name` returns the base name, then for each of date,
room, user in that fixed order whose value is nonempty a hyphen and that
value, then the `.csv` extension; with all three empty it is exactly
`bbb-report.csv`. -/
theorem gen_outfile_name_shape (d r u : String) :
    gen_outfile_name d r u =
      "bbb-report" ++ (if d = "" then "" else "-" ++ d) ++
        (if r = "" then "" else "-" ++ r) ++
        (if u = "" then "" else "-" ++ u) ++ ".csv" ∧
    gen_outfile_name "" "" "" = "bbb-report.csv" := by
  constructor
  · unfold gen_outfile_name def_output_basename
    rcases eq_or_ne d "" with hd | hd <;> rcases eq_or_ne r "" with hr | hr <;>
      rcases eq_or_ne u "" with hu | hu <;>
      simp [hd, hr, hu, String.append_assoc, String.append_empty]
  · rfl

/-! ## C6 -/

/-- C6: filtering with all three criteria set to the match-anything
sentinel returns every parsed record, unchanged and in order. -/
theorem filter_data_sentinel_id (records : List EventRecord) :
    filter_data records "" "" "" = records := by
  unfold filter_data
  simp

/-! ## C8 -/

/-- C8: a missing log file exits with code 2, zero matched lines exit with
code 3, and a nonempty match list is handed to the parser: emptiness is no
error inside `read_data`, it is only the caller that turns it into an
exit. -/
theorem runMain_exit_codes :
    runMain none = .exitCode 2 ∧
    (∀ logLines, read_data logLines = [] → runMain (some logLines) = .exitCode 3) ∧
    (∀ logLines, read_data logLines ≠ [] →
      runMain (some logLines) = .report (parse_data (read_data logLines))) := by
  refine ⟨rfl, fun ls h => ?_, fun ls h => ?_⟩
  · simp [runMain, h]
  · simp [runMain, List.length_eq_zero, h]

/-! ## C2 -/

/-- C2: `read_data` returns exactly the lines containing one of the four
event markers — every line of the output is such a line of the input,
every such line of the input is in the output — in source order (the
output is a sublist of the input). -/
theorem read_data_exact (logLines : List String) :
    (read_data logLines).Sublist logLines ∧
    ∀ l, l ∈ read_data logLines ↔
      l ∈ logLines ∧
        (containsSub l.data "user_joined_message".data = true ∨
         containsSub l.data "user_left_message".data = true ∨
         containsSub l.data "meeting_started".data = true ∨
         containsSub l.data "meeting_ended".data = true) := by
  refine ⟨List.filter_sublist _, fun l => ?_⟩
  simp [read_data, List.mem_filter, line_regex_matches, Bool.or_eq_true, or_assoc]

/-! ## C4 -/

/-- C1: for a matched line whose first 29 characters parse as an ISO 8601
timestamp, any record the parser produces carries that timestamp formatted
as `YYYY-MM-DD` in its date field and as `HH:MM` in its time field. -/
theorem parseLine_date_time (line : String) (evuser0 : Option JValue)
    (ts : PyDateTime) (rec : EventRecord) (st : Option JValue)
    (hm : line_regex_matches line = true)
    (hts : fromisoformat (pyTake line 29) = some ts)
    (hok : parseLine line evuser0 = .ok (rec, st)) :
    rec.date = strftimeYMD ts ∧ rec.time = strftimeHM ts := by
  unfold parseLine at hok
  rw [hts] at hok
  repeat' split at hok
  all_goals simp_all
  all_goals (cases hok.1; simp)

theorem parseLine_date_time_witness :
    ("2021-03-04" : String) = strftimeYMD ⟨2021, 3, 4, 10, 0, 0, 0, some 30000000⟩ ∧
    ("10:00" : String) = strftimeHM ⟨2021, 3, 4, 10, 0, 0, 0, some 30000000⟩ :=
  parseLine_date_time subMinuteTzLine none ⟨2021, 3, 4, 10, 0, 0, 0, some 30000000⟩
    ⟨"2021-03-04", "10:00", .str "Room1", .str "", .str "Meeting started"⟩
    (some (.str "")) rfl rfl rfl

/-! ## C5 -/

/-- C5: once a matched line's timestamp has parsed, each later failure mode
is its own distinguishable error: a line with no `data=` marker fails with
the payload-missing error, a payload that is not valid JSON fails with the
payload-format error, and a decoded object lacking `name`, `description`,
or — for join/leave events — `username` fails with the missing-field error
naming that key. -/
theorem parseLine_payload_errors (line : String) (evuser0 : Option JValue)
    (ts : PyDateTime)
    (hm : line_regex_matches line = true)
    (hts : fromisoformat (pyTake line 29) = some ts) :
    (searchData line = none → parseLine line evuser0 = .error .payloadMissing) ∧
    (∀ p, searchData line = some p → jsonLoads p = none →
      parseLine line evuser0 = .error .payloadFormat) ∧
    (∀ p fields, searchData line = some p → jsonLoads p = some (.obj fields) →
      (jlookup fields "name" = none →
        parseLine line evuser0 = .error (.missingField "name")) ∧
      (∀ nm, jlookup fields "name" = some nm → jlookup fields "description" = none →
        parseLine line evuser0 = .error (.missingField "description")) ∧
      (∀ nm ds lc, jlookup fields "name" = some nm →
        jlookup fields "description" = some ds →
        jlookup fields "logCode" = some lc →
        (jstreq lc "user_joined_message" = true ∨ jstreq lc "user_left_message" = true) →
        jlookup fields "username" = none →
        parseLine line evuser0 = .error (.missingField "username"))) := by
  refine ⟨fun hsd => ?_, fun p hsd hj => ?_, fun p fields hsd hj => ⟨fun hn => ?_,
    fun nm hn hd2 => ?_, fun nm ds lc hn hd2 hlc hkind hu => ?_⟩⟩
  · simp [parseLine, hts, hsd]
  · simp [parseLine, hts, hsd, hj]
  · simp [parseLine, hts, hsd, hj, pySubscript, hn]
  · simp [parseLine, hts, hsd, hj, pySubscript, hn, hd2]
  · rcases hkind with hk | hk <;>
      simp [parseLine, hts, hsd, hj, pySubscript, hn, hd2, hlc, hk, hu]

theorem parseLine_payload_errors_witness :
    parseLine noPayloadLine none = .error .payloadMissing :=
  (parseLine_payload_errors noPayloadLine none ⟨2021, 3, 4, 10, 15, 2, 123000, some 0⟩
    rfl rfl).1 rfl

/-! ## C9 -/

/-- C9: a matched line that parses up to the event-kind dispatch but whose
`logCode` equals none of the four known strings gets no `evuser`
assignment: as the first line of the batch it raises the unbound-local
(name resolution) error, and with any earlier assignment `u` in scope the
emitted record silently reuses `u` as its user field. -/
theorem parseLine_unknown_logcode (line : String) (ts : PyDateTime) (p : String)
    (fields : List (String × JValue)) (nm ds lc : JValue)
    (hm : line_regex_matches line = true)
    (hts : fromisoformat (pyTake line 29) = some ts)
    (hp : searchData line = some p)
    (hj : jsonLoads p = some (.obj fields))
    (hname : jlookup fields "name" = some nm)
    (hdesc : jlookup fields "description" = some ds)
    (hlc : jlookup fields "logCode" = some lc)
    (h1 : jstreq lc "user_joined_message" = false)
    (h2 : jstreq lc "user_left_message" = false)
    (h3 : jstreq lc "meeting_started" = false)
    (h4 : jstreq lc "meeting_ended" = false) :
    parseLine line none = .error .unboundLocal ∧
    ∀ u, parseLine line (some u) =
      .ok (⟨strftimeYMD ts, strftimeHM ts, nm, u, ds⟩, some u) := by
  constructor
  · simp [parseLine, hts, hp, hj, pySubscript, hname, hdesc, hlc, h1, h2, h3, h4]
  · intro u
    simp [parseLine, hts, hp, hj, pySubscript, hname, hdesc, hlc, h1, h2, h3, h4]

theorem parseLine_unknown_logcode_witness :
    parseLine unknownLine none = .error .unboundLocal :=
  (parseLine_unknown_logcode unknownLine ⟨2021, 3, 4, 10, 15, 2, 123000, some 0⟩
    "\x7b\"logCode\":\"user_joined_message_v2\",\"name\":\"Room1\",\"description\":\"User ejected\",\"username\":\"bob\"\x7d"
    [("logCode", .str "user_joined_message_v2"), ("name", .str "Room1"),
      ("description", .str "User ejected"), ("username", .str "bob")]
    (.str "Room1") (.str "User ejected") (.str "user_joined_message_v2")
    rfl rfl rfl rfl rfl rfl rfl rfl rfl rfl rfl).1

/-! ## C3 -/

/-- C3 counterexample: a matched `user_joined_message` line whose payload
carries an empty `username` is parsed into a record whose user field is the
empty string, so a join record's user field need not be nonempty. -/
theorem parseLine_user_empty_join_cex :
    line_regex_matches cexLine3 = true ∧
    lineField cexLine3 "logCode" = some (.str "user_joined_message") ∧
    lineField cexLine3 "username" = some (.str "") ∧
    parse_data [cexLine3] =
      .ok [⟨"2021-03-04", "10:15", .str "Room1", .str "", .str "User joined"⟩] :=
  ⟨rfl, rfl, rfl, rfl⟩

/-- C3 amended: for start/end events the record's user field is exactly the
empty string; for join/leave events it is exactly the payload's `username`
value, verbatim — nonempty only when that value is nonempty. -/
theorem parseLine_user_by_kind (line : String) (evuser0 : Option JValue)
    (ts : PyDateTime) (p : String) (fields : List (String × JValue)) (nm ds lc : JValue)
    (hm : line_regex_matches line = true)
    (hts : fromisoformat (pyTake line 29) = some ts)
    (hp : searchData line = some p)
    (hj : jsonLoads p = some (.obj fields))
    (hname : jlookup fields "name" = some nm)
    (hdesc : jlookup fields "description" = some ds)
    (hlc : jlookup fields "logCode" = some lc) :
    ((lc = .str "meeting_started" ∨ lc = .str "meeting_ended") →
      parseLine line evuser0 =
        .ok (⟨strftimeYMD ts, strftimeHM ts, nm, .str "", ds⟩, some (.str ""))) ∧
    (∀ un, jlookup fields "username" = some un →
      (lc = .str "user_joined_message" ∨ lc = .str "user_left_message") →
      parseLine line evuser0 =
        .ok (⟨strftimeYMD ts, strftimeHM ts, nm, un, ds⟩, some un)) := by
  constructor
  · rintro (rfl | rfl) <;>
      simp [parseLine, hts, hp, hj, pySubscript, hname, hdesc, hlc, jstreq]
  · rintro un hun (rfl | rfl) <;>
      simp [parseLine, hts, hp, hj, pySubscript, hname, hdesc, hlc, hun, jstreq]

theorem parseLine_user_by_kind_witness :
    parseLine joinLine none =
      .ok (⟨"2021-03-04", "10:15", .str "Room1", .str "alice", .str "User joined"⟩,
        some (.str "alice")) :=
  (parseLine_user_by_kind joinLine none ⟨2021, 3, 4, 10, 15, 2, 123000, some 0⟩
    "\x7b\"logCode\":\"user_joined_message\",\"name\":\"Room1\",\"description\":\"User joined\",\"username\":\"alice\"\x7d"
    [("logCode", .str "user_joined_message"), ("name", .str "Room1"),
      ("description", .str "User joined"), ("username", .str "alice")]
    (.str "Room1") (.str "User joined") (.str "user_joined_message")
    rfl rfl rfl rfl rfl rfl rfl).2 (.str "alice") rfl (Or.inl rfl)

/-! ## C7 -/

/-- C7 counterexample: on the line whose timestamp text is exactly the 23
characters `2021-03-04T10:15:02.123` and whose payload is exactly the
claimed object, `line[0:29]` drags in ` data=` and the timestamp parse
fails, so no record at all is produced: the batch aborts with the
timestamp-format error. -/
theorem example_line_23_char_timestamp_cex :
    pyTake cexLine7 23 = "2021-03-04T10:15:02.123" ∧
    searchData cexLine7 =
      some "\x7b\"logCode\":\"meeting_started\",\"name\":\"Room1\",\"description\":\"Meeting started\"\x7d" ∧
    line_regex_matches cexLine7 = true ∧
    parse_data [cexLine7] = .error .timestampFormat :=
  ⟨rfl, rfl, rfl, rfl⟩

/-- C7 amended: when the timestamp fills the whole 29-character slice
(here `2021-03-04T10:15:02.123+00:00`, the same instant with an explicit
zero offset) and the payload is the claimed object, the line is parsed into
exactly the claimed record. -/
theorem example_line_parsed :
    pyTake exLine 29 = "2021-03-04T10:15:02.123+00:00" ∧
    parse_data [exLine] =
      .ok [⟨"2021-03-04", "10:15", .str "Room1", .str "", .str "Meeting started"⟩] :=
  ⟨rfl, rfl⟩
